import Mathlib

/-!
Verification of the provisioning lifecycle controller (launchJob) and its
helpers (namespaceSafeHash, OverrideJobEnvironment, findTargetName,
containerSuccessful, waitForClusterReachable, reFixLines) against their
natural-language specification.  The Go source is shallowly embedded:
external interactions (Kubernetes API calls, remote command execution,
log retrieval) are modelled as finite observation traces supplied by a
World record, and each bounded poll (wait.PollImmediate) is modelled as a
fold over its observation trace, where an exhausted trace denotes the
overall timeout.
-/

/-! ## SHA-256 (crypto/sha256), on byte lists, 32-bit words as Nat mod 2^32 -/

def w32 (n : Nat) : Nat := n % 4294967296

def rotr32 (x n : Nat) : Nat := w32 ((x >>> n) ||| (x <<< (32 - n)))

def bnot32 (x : Nat) : Nat := x ^^^ 4294967295

def ch32 (e f g : Nat) : Nat := (e &&& f) ^^^ (bnot32 e &&& g)

def maj32 (a b c : Nat) : Nat := (a &&& b) ^^^ (a &&& c) ^^^ (b &&& c)

def bigSigma0 (x : Nat) : Nat := rotr32 x 2 ^^^ rotr32 x 13 ^^^ rotr32 x 22

def bigSigma1 (x : Nat) : Nat := rotr32 x 6 ^^^ rotr32 x 11 ^^^ rotr32 x 25

def smallSigma0 (x : Nat) : Nat := rotr32 x 7 ^^^ rotr32 x 18 ^^^ (x >>> 3)

def smallSigma1 (x : Nat) : Nat := rotr32 x 17 ^^^ rotr32 x 19 ^^^ (x >>> 10)

def shaK : List Nat :=
  [1116352408, 1899447441, 3049323471, 3921009573, 961987163,
   1508970993, 2453635748, 2870763221, 3624381080, 310598401,
   607225278, 1426881987, 1925078388, 2162078206, 2614888103,
   3248222580, 3835390401, 4022224774, 264347078, 604807628,
   770255983, 1249150122, 1555081692, 1996064986, 2554220882,
   2821834349, 2952996808, 3210313671, 3336571891, 3584528711,
   113926993, 338241895, 666307205, 773529912, 1294757372,
   1396182291, 1695183700, 1986661051, 2177026350, 2456956037,
   2730485921, 2820302411, 3259730800, 3345764771, 3516065817,
   3600352804, 4094571909, 275423344, 430227734, 506948616,
   659060556, 883997877, 958139571, 1322822218, 1537002063,
   1747873779, 1955562222, 2024104815, 2227730452, 2361852424,
   2428436474, 2756734187, 3204031479, 3329325298]

def shaH0 : List Nat :=
  [1779033703, 3144134277, 1013904242, 2773480762,
   1359893119, 2600822924, 528734635, 1541459225]

def be64Bytes (n : Nat) : List Nat :=
  [(n >>> 56) &&& 255, (n >>> 48) &&& 255, (n >>> 40) &&& 255, (n >>> 32) &&& 255,
   (n >>> 24) &&& 255, (n >>> 16) &&& 255, (n >>> 8) &&& 255, n &&& 255]

def sha256Pad (msg : List Nat) : List Nat :=
  msg ++ 128 :: List.replicate ((119 - msg.length % 64) % 64) 0 ++ be64Bytes (8 * msg.length)

def toWords32 : List Nat → List Nat
  | b0 :: b1 :: b2 :: b3 :: rest =>
      ((((b0 <<< 8) ||| b1) <<< 8 ||| b2) <<< 8 ||| b3) :: toWords32 rest
  | _ => []

def msgSchedule (block : List Nat) : List Nat :=
  (List.range 48).foldl
    (fun w _ =>
      w ++ [w32 (smallSigma1 (w.getD (w.length - 2) 0) + w.getD (w.length - 7) 0 +
                 smallSigma0 (w.getD (w.length - 15) 0) + w.getD (w.length - 16) 0)])
    block

def compressStep (s : List Nat) (wk : Nat × Nat) : List Nat :=
  match s with
  | [a, b, c, d, e, f, g, h] =>
      let t1 := w32 (h + bigSigma1 e + ch32 e f g + wk.2 + wk.1)
      let t2 := w32 (bigSigma0 a + maj32 a b c)
      [w32 (t1 + t2), a, b, c, w32 (d + t1), e, f, g]
  | s => s

def compress (hs : List Nat) (block : List Nat) : List Nat :=
  let s := ((msgSchedule block).zip shaK).foldl compressStep hs
  (hs.zip s).map (fun p => w32 (p.1 + p.2))

def sha256Blocks (h : List Nat) (ws : List Nat) : Nat → List Nat
  | 0 => h
  | n + 1 => sha256Blocks (compress h (ws.take 16)) (ws.drop 16) n

def sha256 (msg : List Nat) : List Nat :=
  let ws := toWords32 (sha256Pad msg)
  (sha256Blocks shaH0 ws (ws.length / 16)).flatMap
    (fun w => [(w >>> 24) &&& 255, (w >>> 16) &&& 255, (w >>> 8) &&& 255, w &&& 255])

/-! ## UTF-8 bytes of a string (Go `[]byte(s)`) -/

def utf8Bytes (c : Char) : List Nat :=
  let n := c.toNat
  if n < 128 then [n]
  else if n < 2048 then [192 ||| (n >>> 6), 128 ||| (n &&& 63)]
  else if n < 65536 then
    [224 ||| (n >>> 12), 128 ||| ((n >>> 6) &&& 63), 128 ||| (n &&& 63)]
  else
    [240 ||| (n >>> 18), 128 ||| ((n >>> 12) &&& 63), 128 ||| ((n >>> 6) &&& 63), 128 ||| (n &&& 63)]

def strBytes (s : String) : List Nat := s.data.flatMap utf8Bytes

/-! ## base32 with the custom alphabet and no padding (encoding/base32) -/

def oneWayNameEncodingAlphabet : String := "bcdfghijklmnpqrstvwxyz0123456789"

def base32EncodeNoPad (alpha : String) (bs : List Nat) : String :=
  let outLen := (8 * bs.length + 4) / 5
  let n := (bs.foldl (fun acc b => acc * 256 + b) 0) <<< (5 * outLen - 8 * bs.length)
  String.mk ((List.range outLen).map
    (fun i => alpha.data.getD ((n >>> (5 * (outLen - 1 - i))) &&& 31) 'b'))

/-- `oneWayNameEncoding.EncodeToString` from the source, specialised to the
fixed 32-symbol alphabet with `base32.NoPadding`. -/
def oneWayNameEncoding (bs : List Nat) : String :=
  base32EncodeNoPad oneWayNameEncodingAlphabet bs

/-- `namespaceSafeHash`: hash of the concatenated inputs, truncated to the
first 4 bytes and base32-encoded with the custom alphabet. -/
def namespaceSafeHash (values : List String) : String :=
  oneWayNameEncoding ((sha256 (values.flatMap strBytes)).take 4)

/-! ## Data model: pods, prow jobs, provisioning requests -/

structure EnvVar where
  name : String
  value : String
deriving DecidableEq

structure Container where
  name : String
  args : List String
  env : List EnvVar
deriving DecidableEq

structure PodSpec where
  containers : List Container
deriving DecidableEq

structure ProwJobSpec where
  job : String
  type : String
  podSpec : Option PodSpec
deriving DecidableEq

structure ObjectMeta where
  name : String
  nspace : String
  annotations : List (String × String)
  labels : List (String × String)
deriving DecidableEq

structure ProwJob where
  metadata : ObjectMeta
  spec : ProwJobSpec
deriving DecidableEq

structure ContainerStatus where
  name : String
  terminated : Option Int
deriving DecidableEq

structure Pod where
  phase : String
  containerStatuses : List ContainerStatus
deriving DecidableEq

/-- The Provisioning Request (`Job` in the source). -/
structure Job where
  Name : String
  JobName : String
  Mode : String
  RequestedBy : String
  RequestedChannel : String
  InstallImage : String
  UpgradeImage : String
  InstallVersion : String
  UpgradeVersion : String
  URL : String
  Credentials : String
  PasswordSnippet : String
deriving DecidableEq

/-! ## Pure helpers from the source -/

/-- `strings.HasPrefix` on character lists (structural, kernel-evaluable). -/
def leadsWith : List Char → List Char → Bool
  | _, [] => true
  | [], _ :: _ => false
  | a :: as, b :: bs => a == b && leadsWith as bs

/-- `findTargetName`: scan unnamed containers for a `--target=` argument. -/
def findTargetArgs : List String → Option String
  | [] => none
  | arg :: rest =>
    if leadsWith arg.data (("--target=").data) then
      let name := String.mk (arg.data.drop (("--target=").data.length))
      if name.length > 0 then some name else findTargetArgs rest
    else findTargetArgs rest

def findTargetContainers : List Container → Option String
  | [] => none
  | c :: rest =>
    if c.name ≠ "" then findTargetContainers rest
    else
      match findTargetArgs c.args with
      | some n => some n
      | none => findTargetContainers rest

def findTargetName (spec : Option PodSpec) : Except String String :=
  match spec with
  | none => Except.error ("prow job has no pod spec, cannot find target pod name")
  | some s =>
    match findTargetContainers s.containers with
    | some n => Except.ok n
    | none =>
      Except.error
        ("could not find argument --target=X in prow job pod spec to identify target pod name")

/-- `containerSuccessful`: the first status whose name matches decides;
no match or a not-terminated state is simply not successful. -/
def containerSuccessful (pod : Pod) (containerName : String) : Bool × Option String :=
  match pod.containerStatuses.find? (fun c => c.name == containerName) with
  | none => (false, none)
  | some c =>
    match c.terminated with
    | none => (false, none)
    | some code => (code == 0, none)

/-- `OverrideJobEnvironment` on a single environment list. -/
def overrideEnvList (image initialImage ns : String) (env : List EnvVar) : List EnvVar :=
  env.map fun v =>
    if v.name = "RELEASE_IMAGE_LATEST" then { v with value := image }
    else if v.name = "RELEASE_IMAGE_INITIAL" then { v with value := initialImage }
    else if v.name = "NAMESPACE" then { v with value := ns }
    else v

/-- `prow.OverrideJobEnvironment`: rewrite the three recognised environment
variables in every container of the pod spec. -/
def OverrideJobEnvironment (spec : ProwJobSpec) (image initialImage ns : String) : ProwJobSpec :=
  { spec with
    podSpec := spec.podSpec.map fun ps =>
      { ps with containers := ps.containers.map fun c =>
          { c with env := overrideEnvList image initialImage ns c.env } } }

def listContainsAux : List Char → List Char → Bool
  | [], pat => pat.isEmpty
  | a :: as, pat => leadsWith (a :: as) pat || listContainsAux as pat

/-- `strings.Contains`. -/
def strContains (s sub : String) : Bool := listContainsAux s.data sub.data

def splitOnChar (sep : Char) : List Char → List (List Char)
  | [] => [[]]
  | c :: cs =>
    let r := splitOnChar sep cs
    if c == sep then [] :: r
    else
      match r with
      | [] => [[c]]
      | l :: ls => (c :: l) :: ls

/-- The regexp rewrite `reFixLines.ReplaceAllString(logs, "$1")` on a single
line: a line of the exact shape `level=info msg="..."` is replaced by the
quoted content, any other line is unchanged. -/
def fixLine (line : List Char) : List Char :=
  let pre := ("level=info msg=\"").data
  if leadsWith line pre
      && (match line.getLast? with
          | some c => c == '"'
          | none => false)
      && pre.length < line.length then
    (line.drop pre.length).dropLast
  else line

def joinLines : List (List Char) → List Char
  | [] => []
  | [l] => l
  | l :: ls => l ++ '\n' :: joinLines ls

def reFixLines (s : String) : String :=
  String.mk (joinLines ((splitOnChar '\n' s.data).map fixLine))

/-! ## The bounded poll primitive (wait.PollImmediate)

A poll condition consumes one observation per attempt and reports done,
not-ready, or a fatal error, threading its private state.  The observation
trace is finite: an exhausted trace is the overall timeout, whose error
text is that of `wait.ErrWaitTimeout`. -/

inductive CondR (σ : Type) where
  | done (s : σ)
  | notReady (s : σ)
  | fatal (e : String) (s : σ)
deriving DecidableEq

inductive PollOut (σ : Type) where
  | ok (s : σ)
  | err (e : String) (s : σ)
  | timeout (s : σ)
deriving DecidableEq

def runPoll {ω σ : Type} (cond : σ → ω → CondR σ) : σ → List ω → PollOut σ
  | s, [] => PollOut.timeout s
  | s, o :: os =>
    match cond s o with
    | CondR.done s2 => PollOut.ok s2
    | CondR.fatal e s2 => PollOut.err e s2
    | CondR.notReady s2 => runPoll cond s2 os

def timeoutMsg : String := "timed out waiting for the condition"

/-! ## Observations delivered by the outside world -/

inductive K8sErr where
  | notFound
  | forbidden
  | alreadyExists
  | other (msg : String)
deriving DecidableEq

def K8sErr.msg : K8sErr → String
  | K8sErr.notFound => "not found"
  | K8sErr.forbidden => "forbidden"
  | K8sErr.alreadyExists => "already exists"
  | K8sErr.other m => m

/-- One attempt of the URL poll: a fetch or conversion failure, or the
currently reported status URL. -/
inductive URLObs where
  | getErr (e : String)
  | status (url : String)
deriving DecidableEq

/-- One attempt of a pod poll: a get error or the pod. -/
inductive PodObs where
  | err (e : K8sErr)
  | pod (p : Pod)
deriving DecidableEq

/-- Result of the secondary pod get inside the credential poll.  A get
error other than NotFound leaves the typed client with an empty pod whose
phase is neither Succeeded nor Failed. -/
inductive PodCheck where
  | notFound
  | otherErr
  | found (phase : String)
deriving DecidableEq

/-- One attempt of the credential poll: remote execution failed with a
message (together with what the secondary pod get would report), or it
returned standard output. -/
inductive ExecObs where
  | execErr (msg : String) (check : PodCheck)
  | output (s : String)
deriving DecidableEq

/-! ## The poll conditions of launchJob, one per stage -/

def urlCond (s : Option String) (o : URLObs) : CondR (Option String) :=
  match o with
  | URLObs.getErr e => CondR.fatal e s
  | URLObs.status url => if url.length > 0 then CondR.done (some url) else CondR.notReady s

def visCond (seen : Bool) (o : PodObs) : CondR Bool :=
  match o with
  | PodObs.err e =>
    match e with
    | K8sErr.notFound =>
      if seen then CondR.fatal ("pod was deleted") seen else CondR.notReady seen
    | e => CondR.fatal e.msg seen
  | PodObs.pod p =>
    if p.phase == "Succeeded" || p.phase == "Failed" then
      CondR.fatal ("pod has already exited") true
    else CondR.done true

structure SetupSt where
  seen : Bool
  lastErr : Option String
deriving DecidableEq

def setupInit : SetupSt := ⟨false, none⟩

def setupCond (s : SetupSt) (o : PodObs) : CondR SetupSt :=
  match o with
  | PodObs.err e =>
    match e with
    | K8sErr.notFound =>
      if s.seen then CondR.fatal ("pod was deleted") s else CondR.notReady s
    | K8sErr.forbidden =>
      if s.seen then CondR.fatal ("pod was deleted") s else CondR.notReady s
    | e => CondR.fatal e.msg { s with lastErr := some e.msg }
  | PodObs.pod p =>
    let s2 : SetupSt := { s with seen := true }
    if p.phase == "Succeeded" || p.phase == "Failed" then
      CondR.fatal ("pod has already exited") s2
    else
      match containerSuccessful p ("setup") with
      | (_, some e) => CondR.fatal e s2
      | (ok, none) => if ok then CondR.done s2 else CondR.notReady s2

/-- The setup stage including its wrapper: on failure the last recorded
error is preferred over a bare timeout, and the result is wrapped as
`pod never became available`. -/
def setupStage (obs : List PodObs) : Option String :=
  match runPoll setupCond setupInit obs with
  | PollOut.ok _ => none
  | PollOut.err e _ => some ("pod never became available: " ++ e)
  | PollOut.timeout s =>
    some ("pod never became available: " ++
      (match s.lastErr with
       | some le => le
       | none => timeoutMsg))

def podCheckFatal : PodCheck → Bool
  | PodCheck.notFound => true
  | PodCheck.otherErr => false
  | PodCheck.found ph => ph == "Succeeded" || ph == "Failed"

def execCond (kc : String) (o : ExecObs) : CondR String :=
  match o with
  | ExecObs.execErr msg check =>
    if strContains msg ("container not found") then
      if podCheckFatal check then
        CondR.fatal ("pod cannot be found or has been deleted, assume cluster won\x27t come up") kc
      else CondR.notReady kc
    else CondR.notReady kc
  | ExecObs.output s => if s.length > 0 then CondR.done s else CondR.notReady s

def reachCond (_s : Unit) (ok : Bool) : CondR Unit :=
  if ok then CondR.done () else CondR.notReady ()

/-- `waitForClusterReachable`: client construction from the credential
artifact may fail; otherwise poll the well-known namespace until one get
succeeds or the trace (the time budget) is exhausted. -/
def waitForClusterReachable (load : Option String) (probes : List Bool) : Option String :=
  match load with
  | some e => some e
  | none =>
    match runPoll reachCond () probes with
    | PollOut.ok _ => none
    | PollOut.err e _ => some e
    | PollOut.timeout _ => some timeoutMsg

/-! ## The world: every external response launchJob can consume in one run -/

structure World where
  prowNamespace : String
  jobForConfig : Except String ProwJob
  createResult : Option K8sErr
  urlObs : List URLObs
  visObs : List PodObs
  setupObs : List PodObs
  execObs : List ExecObs
  reachLoad : Option String
  reachProbes : List Bool
  logs : String
  patchErr : Option String

/-- The externally visible operations a run performed, in order. -/
inductive Effect where
  | resolveConfig
  | createJob
  | urlPoll
  | visPoll
  | setupPoll
  | credExec
  | reachProbe
  | logFetch
  | clearChannel
deriving DecidableEq

structure RunResult where
  ret : Option String
  job : Job
  effects : List Effect
  submitted : Option ProwJob
deriving DecidableEq

/-- The object handed to `Create`: resolved spec stamped with identity,
annotations and labels, environment variables overridden. -/
def buildSubmitted (job : Job) (pj : ProwJob) (ns prowNamespace : String) : ProwJob :=
  let baseAnn : List (String × String) :=
    [("ci-chat-bot.openshift.io/mode", job.Mode),
     ("ci-chat-bot.openshift.io/user", job.RequestedBy),
     ("ci-chat-bot.openshift.io/channel", job.RequestedChannel),
     ("ci-chat-bot.openshift.io/ns", ns),
     ("ci-chat-bot.openshift.io/releaseImage", job.InstallImage),
     ("ci-chat-bot.openshift.io/upgradeImage", job.UpgradeImage),
     ("prow.k8s.io/job", pj.spec.job)]
  let baseLbl : List (String × String) :=
    [("ci-chat-bot.openshift.io/launch", "true"),
     ("prow.k8s.io/type", pj.spec.type),
     ("prow.k8s.io/job", pj.spec.job)]
  let verify := job.InstallVersion.length > 0 && job.UpgradeVersion.length > 0
  let ann := if verify then
      baseAnn ++ [("release.openshift.io/from-tag", job.InstallVersion),
                  ("release.openshift.io/tag", job.UpgradeVersion)]
    else baseAnn
  let lbl := if verify then baseLbl ++ [("release.openshift.io/verify", "true")] else baseLbl
  let image := if job.UpgradeImage.length > 0 then job.UpgradeImage else job.InstallImage
  let initialImage := if job.UpgradeImage.length > 0 then job.InstallImage else ("")
  { metadata := { name := job.Name, nspace := prowNamespace, annotations := ann, labels := lbl },
    spec := OverrideJobEnvironment pj.spec image initialImage ns }

/-- `errors.IsAlreadyExists` handling at the create call: an AlreadyExists
failure is not fatal, any other failure is. -/
def createFatal : Option K8sErr → Option String
  | none => none
  | some K8sErr.alreadyExists => none
  | some e => some e.msg

/-! ## launchJob, stage by stage.  Each stage either stops the run with a
wrapped error or hands the (possibly mutated) request to the next one. -/

def launchFinish (w : World) (job : Job) (effs : List Effect) (pjS : ProwJob)
    (kc : String) : RunResult :=
  let job1 := { job with Credentials := kc }
  let waitErr := (waitForClusterReachable w.reachLoad w.reachProbes).map
    (fun e => "cluster did not become reachable: " ++ e)
  let job2 := if waitErr.isSome then { job1 with Credentials := "" } else job1
  let job3 := { job2 with PasswordSnippet := reFixLines w.logs }
  { ret := waitErr, job := job3,
    effects := effs ++ [Effect.reachProbe, Effect.logFetch, Effect.clearChannel],
    submitted := some pjS }

def launchCred (w : World) (job : Job) (effs : List Effect) (pjS : ProwJob) : RunResult :=
  let effs := effs ++ [Effect.credExec]
  match runPoll execCond ("") w.execObs with
  | PollOut.ok kc => launchFinish w job effs pjS kc
  | PollOut.err e _ =>
    { ret := some ("could not retrieve kubeconfig from pod: " ++ e), job := job,
      effects := effs, submitted := some pjS }
  | PollOut.timeout _ =>
    { ret := some ("could not retrieve kubeconfig from pod: " ++ timeoutMsg), job := job,
      effects := effs, submitted := some pjS }

def launchSetup (w : World) (job : Job) (effs : List Effect) (pjS : ProwJob) : RunResult :=
  let effs := effs ++ [Effect.setupPoll]
  match setupStage w.setupObs with
  | none => launchCred w job effs pjS
  | some e => { ret := some e, job := job, effects := effs, submitted := some pjS }

def launchVis (w : World) (job : Job) (effs : List Effect) (pjS : ProwJob) : RunResult :=
  let effs := effs ++ [Effect.visPoll]
  match runPoll visCond false w.visObs with
  | PollOut.ok _ => launchSetup w job effs pjS
  | PollOut.err e _ =>
    { ret := some ("unable to check launch status: " ++ e), job := job,
      effects := effs, submitted := some pjS }
  | PollOut.timeout _ =>
    { ret := some ("unable to check launch status: " ++ timeoutMsg), job := job,
      effects := effs, submitted := some pjS }

def launchModeCheck (w : World) (job : Job) (effs : List Effect) (pjS : ProwJob) : RunResult :=
  if job.Mode = "launch" then launchVis w job effs pjS
  else { ret := none, job := job, effects := effs, submitted := some pjS }

def launchURL (w : World) (job : Job) (effs : List Effect) (pjS : ProwJob) : RunResult :=
  let effs := effs ++ [Effect.urlPoll]
  match runPoll urlCond none w.urlObs with
  | PollOut.ok u => launchModeCheck w { job with URL := u.getD job.URL } effs pjS
  | PollOut.err e _ =>
    { ret := some ("did not retrieve job url due to an error: " ++ e), job := job,
      effects := effs, submitted := some pjS }
  | PollOut.timeout _ =>
    { ret := some ("did not retrieve job url due to an error: " ++ timeoutMsg), job := job,
      effects := effs, submitted := some pjS }

def launchCreate (w : World) (job : Job) (effs : List Effect) (pjS : ProwJob) : RunResult :=
  let effs := effs ++ [Effect.createJob]
  match createFatal w.createResult with
  | some m => { ret := some m, job := job, effects := effs, submitted := some pjS }
  | none => launchURL w job effs pjS

def launchResolve (w : World) (job : Job) : RunResult :=
  let ns := "ci-ln-" ++ namespaceSafeHash [job.Name]
  match w.jobForConfig with
  | Except.error e =>
    { ret := some e, job := job, effects := [Effect.resolveConfig], submitted := none }
  | Except.ok pj =>
    match findTargetName pj.spec.podSpec with
    | Except.error e =>
      { ret := some e, job := job, effects := [Effect.resolveConfig], submitted := none }
    | Except.ok _targetPodName =>
      launchCreate w job [Effect.resolveConfig] (buildSubmitted job pj ns w.prowNamespace)

/-- `launchJob`: the full run.  The idempotency guard returns before any
external operation. -/
def launchJob (w : World) (job : Job) : RunResult :=
  if job.Credentials.length > 0 && job.PasswordSnippet.length > 0 then
    { ret := none, job := job, effects := [], submitted := none }
  else launchResolve w job

/-! ## Concrete fixtures used by the witnesses -/

def fixturePodSpec : PodSpec :=
  { containers :=
      [{ name := "",
         args := ["--artifact-dir=/tmp/artifacts", "--target=test"],
         env := [⟨"RELEASE_IMAGE_LATEST", "old"⟩, ⟨"NAMESPACE", "old-ns"⟩,
                 ⟨"OTHER_VAR", "keep"⟩] }] }

def fixtureProwJob : ProwJob :=
  { metadata := ⟨"", "", [], []⟩,
    spec := { job := "release-launch", type := "periodic", podSpec := some fixturePodSpec } }

def fixtureJob : Job :=
  { Name := "launch-abc123", JobName := "release-launch", Mode := "launch",
    RequestedBy := "alice", RequestedChannel := "chan", InstallImage := "registry/img:latest",
    UpgradeImage := "", InstallVersion := "", UpgradeVersion := "",
    URL := "", Credentials := "", PasswordSnippet := "" }

def fixtureWorld : World :=
  { prowNamespace := "ci", jobForConfig := Except.ok fixtureProwJob,
    createResult := none,
    urlObs := [URLObs.status ("")],
    visObs := [], setupObs := [], execObs := [],
    reachLoad := none, reachProbes := [], logs := "", patchErr := none }



def c1Job : Job := { fixtureJob with Credentials := "kubeconfig-data", PasswordSnippet := "snippet" }

def c8World : World := { fixtureWorld with createResult := some K8sErr.alreadyExists }

def c10World : World := { fixtureWorld with urlObs := [URLObs.status ("https://prow/job/1")] }

def c10Job : Job := { fixtureJob with Mode := "build" }

def c2World : World :=
  { fixtureWorld with
    urlObs := [URLObs.status ("https://prow/job/2")],
    visObs := [PodObs.pod ⟨"Pending", []⟩],
    setupObs := [PodObs.pod ⟨"Running", [⟨"setup", some 0⟩]⟩],
    execObs := [ExecObs.output ("apiVersion: v1")],
    reachProbes := [false],
    logs := "level=info msg=\"Login with admin\"" }

/-- Checker used to state claim C4: in every container of the submitted
pod spec, every variable named RELEASE_IMAGE_LATEST carries the given
image and every variable named NAMESPACE carries the derived namespace. -/
def envVarsRewritten (img ns : String) (pj : ProwJob) : Bool :=
  match pj.spec.podSpec with
  | none => true
  | some ps =>
    ps.containers.all fun c => c.env.all fun v =>
      (v.name != "RELEASE_IMAGE_LATEST" || v.value == img) &&
      (v.name != "NAMESPACE" || v.value == ns)

/-! ## Helper lemmas -/

theorem launchCred_submitted (w : World) (job : Job) (effs : List Effect) (pjS : ProwJob) :
    (launchCred w job effs pjS).submitted = some pjS := by
  unfold launchCred
  cases h : runPoll execCond ("") w.execObs <;> simp [h, launchFinish]

theorem launchSetup_submitted (w : World) (job : Job) (effs : List Effect) (pjS : ProwJob) :
    (launchSetup w job effs pjS).submitted = some pjS := by
  unfold launchSetup
  cases h : setupStage w.setupObs <;> simp [h, launchCred_submitted]

theorem launchVis_submitted (w : World) (job : Job) (effs : List Effect) (pjS : ProwJob) :
    (launchVis w job effs pjS).submitted = some pjS := by
  unfold launchVis
  cases h : runPoll visCond false w.visObs <;> simp [h, launchSetup_submitted]

theorem launchModeCheck_submitted (w : World) (job : Job) (effs : List Effect) (pjS : ProwJob) :
    (launchModeCheck w job effs pjS).submitted = some pjS := by
  unfold launchModeCheck
  split
  · exact launchVis_submitted w job effs pjS
  · rfl

theorem launchURL_submitted (w : World) (job : Job) (effs : List Effect) (pjS : ProwJob) :
    (launchURL w job effs pjS).submitted = some pjS := by
  unfold launchURL
  cases h : runPoll urlCond none w.urlObs <;> simp [h, launchModeCheck_submitted]

theorem launchCreate_submitted (w : World) (job : Job) (effs : List Effect) (pjS : ProwJob) :
    (launchCreate w job effs pjS).submitted = some pjS := by
  unfold launchCreate
  cases h : createFatal w.createResult <;> simp [h, launchURL_submitted]

theorem buildSubmitted_ns_ann (job : Job) (pj : ProwJob) (ns pns : String) :
    ((buildSubmitted job pj ns pns).metadata.annotations).lookup ("ci-chat-bot.openshift.io/ns")
      = some ns := by
  unfold buildSubmitted
  cases h : job.InstallVersion.length > 0 && job.UpgradeVersion.length > 0 <;>
    simp [h, List.lookup]

theorem overrideEnvList_checks (img init ns : String) (env : List EnvVar) :
    (overrideEnvList img init ns env).all (fun v =>
        (v.name != "RELEASE_IMAGE_LATEST" || v.value == img) &&
        (v.name != "NAMESPACE" || v.value == ns)) = true := by
  induction env with
  | nil => rfl
  | cons v vs ih =>
    simp only [overrideEnvList, List.map_cons, List.all_cons] at ih ⊢
    rw [ih, Bool.and_true]
    by_cases h1 : v.name = "RELEASE_IMAGE_LATEST"
    · simp [h1]
    · by_cases h2 : v.name = "RELEASE_IMAGE_INITIAL"
      · simp [h1, h2]
      · by_cases h3 : v.name = "NAMESPACE"
        · simp [h1, h2, h3]
        · simp [h1, h2, h3]

theorem envVarsRewritten_override (meta : ObjectMeta) (spec : ProwJobSpec)
    (img init ns : String) :
    envVarsRewritten img ns ⟨meta, OverrideJobEnvironment spec img init ns⟩ = true := by
  unfold envVarsRewritten OverrideJobEnvironment
  cases spec.podSpec with
  | none => rfl
  | some ps =>
    simp only [Option.map]
    rw [List.all_eq_true]
    intro c hc
    simp only [List.mem_map] at hc
    obtain ⟨c0, _, rfl⟩ := hc
    exact overrideEnvList_checks img init ns c0.env

/-- A not-ready step of the setup condition never changes `lastErr`. -/
theorem setupCond_notReady_lastErr (s s2 : SetupSt) (o : PodObs)
    (h : setupCond s o = CondR.notReady s2) : s2.lastErr = s.lastErr := by
  cases o with
  | err e =>
    cases e with
    | notFound =>
      simp only [setupCond] at h
      split at h
      · cases h
      · cases h; rfl
    | forbidden =>
      simp only [setupCond] at h
      split at h
      · cases h
      · cases h; rfl
    | alreadyExists => simp only [setupCond] at h; cases h
    | other m => simp only [setupCond] at h; cases h
  | pod p =>
    simp only [setupCond] at h
    split at h
    · cases h
    · split at h
      · cases h
      · split at h
        · cases h
        · cases h; rfl

/-- Only immediately-fatal attempts record `lastErr`, so a poll that runs to
its timeout still carries the initial `lastErr`. -/
theorem setup_timeout_lastErr (obs : List PodObs) (s st : SetupSt)
    (h : runPoll setupCond s obs = PollOut.timeout st) : st.lastErr = s.lastErr := by
  induction obs generalizing s with
  | nil =>
    simp only [runPoll] at h
    cases h
    rfl
  | cons o os ih =>
    simp only [runPoll] at h
    cases hc : setupCond s o with
    | done s2 => rw [hc] at h; cases h
    | fatal e s2 => rw [hc] at h; cases h
    | notReady s2 =>
      rw [hc] at h
      rw [ih s2 h]
      exact setupCond_notReady_lastErr s s2 o hc

/-- A done step of the credential condition carries non-empty output. -/
theorem execCond_done_pos (s s2 : String) (o : ExecObs)
    (h : execCond s o = CondR.done s2) : 0 < s2.length := by
  cases o with
  | execErr msg check =>
    simp only [execCond] at h
    split at h
    · split at h
      · cases h
      · cases h
    · cases h
  | output out =>
    simp only [execCond] at h
    split at h
    next hpos => cases h; exact hpos
    next => cases h

/-- The credential poll only succeeds with a non-empty artifact. -/
theorem execPoll_ok_pos (obs : List ExecObs) (s kc : String)
    (h : runPoll execCond s obs = PollOut.ok kc) : 0 < kc.length := by
  induction obs generalizing s with
  | nil => simp [runPoll] at h
  | cons o os ih =>
    simp only [runPoll] at h
    cases hc : execCond s o with
    | done s2 =>
      rw [hc] at h
      cases h
      exact execCond_done_pos s kc o hc
    | fatal e s2 => rw [hc] at h; cases h
    | notReady s2 =>
      rw [hc] at h
      exact ih s2 h

/-! ## Claims -/

/-- Claim C1: a Provisioning Request whose credential artifact and
connection snippet are both non-empty makes launchJob return success at
once, with no external operation performed, no resource submitted and the
request unchanged. -/
theorem claim_C1 (w : World) (job : Job)
    (hc : 0 < job.Credentials.length) (hp : 0 < job.PasswordSnippet.length) :
    launchJob w job = { ret := none, job := job, effects := [], submitted := none } := by
  unfold launchJob
  simp [hc, hp]

theorem claim_C1_witness :
    launchJob fixtureWorld c1Job
      = { ret := none, job := c1Job, effects := [], submitted := none } :=
  claim_C1 fixtureWorld c1Job (by decide) (by decide)

/-- Claim C5: when the setup-completion poll exhausts its time budget
without the setup container having succeeded, the stage fails, and the
error detail is the recorded last error when one exists, the generic
timeout text otherwise. -/
theorem claim_C5 (obs : List PodObs) (st : SetupSt)
    (h : runPoll setupCond setupInit obs = PollOut.timeout st) :
    setupStage obs = some ("pod never became available: " ++
      (match st.lastErr with
       | some d => d
       | none => timeoutMsg)) := by
  unfold setupStage
  rw [h]

theorem claim_C5_witness :
    setupStage [PodObs.err K8sErr.notFound]
      = some ("pod never became available: " ++ timeoutMsg) :=
  claim_C5 [PodObs.err K8sErr.notFound] setupInit (by decide)

/-- Claim C6, counterexample: an observation sequence that fetches the pod
successfully (phase Running) and then reports NotFound makes the
workload-visibility poll SUCCEED at the first fetch; it does not fail with
a pod-was-deleted error as the claim states, because a successful fetch
ends this poll immediately. -/
theorem claim_C6_cex :
    runPoll visCond false [PodObs.pod ⟨"Running", []⟩, PodObs.err K8sErr.notFound]
      = PollOut.ok true
    ∧ runPoll visCond false [PodObs.pod ⟨"Running", []⟩, PodObs.err K8sErr.notFound]
      ≠ PollOut.err ("pod was deleted") true := by decide

/-- Claim C6, amended: NotFound before any successful fetch is
not-yet-ready; the first successful fetch ends the poll at once (success
for a non-terminal phase, fatal pod-has-already-exited for a terminal one),
so no later attempt ever follows a successful fetch; the condition itself,
if invoked with the seen flag set and a NotFound error, does fail with
pod-was-deleted. -/
theorem claim_C6 (k : Nat) (p : Pod) (rest : List PodObs) :
    visCond true (PodObs.err K8sErr.notFound) = CondR.fatal ("pod was deleted") true
    ∧ runPoll visCond false
        (List.replicate k (PodObs.err K8sErr.notFound) ++ PodObs.pod p :: rest)
      = (if p.phase == "Succeeded" || p.phase == "Failed"
         then PollOut.err ("pod has already exited") true
         else PollOut.ok true) := by
  refine ⟨rfl, ?_⟩
  induction k with
  | zero =>
    cases hterm : (p.phase == "Succeeded" || p.phase == "Failed") <;>
      simp [runPoll, visCond, hterm]
  | succ n ih =>
    rw [List.replicate_succ, List.cons_append, runPoll]
    simpa [visCond] using ih

/-- Claim C3: in the credential-retrieval poll an execution error whose
message contains container-not-found is not-yet-ready unless the fresh pod
fetch reports NotFound or a terminal phase, which is fatal with the exact
message from the source; any other execution error is not-yet-ready; and
the attempt succeeds exactly on non-empty standard output. -/
theorem claim_C3 (kc msg out : String) (check : PodCheck) :
    (strContains msg ("container not found") = true → podCheckFatal check = true →
       execCond kc (ExecObs.execErr msg check)
         = CondR.fatal ("pod cannot be found or has been deleted, assume cluster won\x27t come up") kc)
    ∧ (strContains msg ("container not found") = true → podCheckFatal check = false →
       execCond kc (ExecObs.execErr msg check) = CondR.notReady kc)
    ∧ (strContains msg ("container not found") = false →
       execCond kc (ExecObs.execErr msg check) = CondR.notReady kc)
    ∧ (execCond kc (ExecObs.output out) = CondR.done out ↔ 0 < out.length)
    ∧ (out.length = 0 → execCond kc (ExecObs.output out) = CondR.notReady out) := by
  refine ⟨fun h1 h2 => ?_, fun h1 h2 => ?_, fun h1 => ?_, ⟨fun h => ?_, fun h => ?_⟩, fun h => ?_⟩
  · simp [execCond, h1, h2]
  · simp [execCond, h1, h2]
  · simp [execCond, h1]
  · by_cases hl : 0 < out.length
    · exact hl
    · simp only [execCond] at h
      rw [if_neg hl] at h
      cases h
  · simp [execCond, h]
  · simp [execCond, h]

theorem claim_C3_witness :
    execCond ("") (ExecObs.execErr ("command error: container not found") PodCheck.notFound)
      = CondR.fatal ("pod cannot be found or has been deleted, assume cluster won\x27t come up") "" :=
  (claim_C3 ("") "command error: container not found" "" PodCheck.notFound).1 (by decide) (by decide)

/-- Claim C8: an already-exists failure of the create call is treated
exactly like a successful create, with the run proceeding to the URL
stage, while any other create failure aborts the run with that error
after resolution and submission only. -/
theorem claim_C8 (w : World) (job : Job) (pj : ProwJob) (t : String) (e : K8sErr)
    (hg : (job.Credentials.length > 0 && job.PasswordSnippet.length > 0) = false)
    (hcfg : w.jobForConfig = Except.ok pj)
    (ht : findTargetName pj.spec.podSpec = Except.ok t) :
    (w.createResult = some K8sErr.alreadyExists ∨ w.createResult = none →
       launchJob w job = launchURL w job [Effect.resolveConfig, Effect.createJob]
         (buildSubmitted job pj ("ci-ln-" ++ namespaceSafeHash [job.Name]) w.prowNamespace))
    ∧ (w.createResult = some e → e ≠ K8sErr.alreadyExists →
         (launchJob w job).ret = some e.msg ∧
         (launchJob w job).effects = [Effect.resolveConfig, Effect.createJob]) := by
  have hrun : launchJob w job
      = launchCreate w job [Effect.resolveConfig]
          (buildSubmitted job pj ("ci-ln-" ++ namespaceSafeHash [job.Name]) w.prowNamespace) := by
    simp only [launchJob, hg, Bool.false_eq_true, if_false, launchResolve, hcfg, ht]
  constructor
  · intro hor
    rw [hrun]
    cases hor with
    | inl hc => simp [launchCreate, hc, createFatal]
    | inr hc => simp [launchCreate, hc, createFatal]
  · intro hce hne
    rw [hrun]
    have hcf : createFatal w.createResult = some e.msg := by
      rw [hce]
      cases e with
      | alreadyExists => exact absurd rfl hne
      | notFound => rfl
      | forbidden => rfl
      | other m => rfl
    simp [launchCreate, hcf]

theorem claim_C8_witness :
    launchJob c8World fixtureJob
      = launchURL c8World fixtureJob [Effect.resolveConfig, Effect.createJob]
          (buildSubmitted fixtureJob fixtureProwJob
            ("ci-ln-" ++ namespaceSafeHash [fixtureJob.Name]) c8World.prowNamespace) :=
  (claim_C8 c8World fixtureJob fixtureProwJob ("test") K8sErr.alreadyExists
    (by decide) rfl rfl).1 (Or.inl rfl)

/-- Claim C10: a request whose mode is not launch stops right after the
URL was recorded, with success, with none of the later stages performed
and with the credential artifact and connection snippet still empty. -/
theorem claim_C10 (w : World) (job : Job) (pj : ProwJob) (t : String) (u : Option String)
    (hcred : job.Credentials = "") (hsnip : job.PasswordSnippet = "")
    (hcfg : w.jobForConfig = Except.ok pj)
    (ht : findTargetName pj.spec.podSpec = Except.ok t)
    (hcf : createFatal w.createResult = none)
    (hu : runPoll urlCond none w.urlObs = PollOut.ok u)
    (hm : job.Mode ≠ "launch") :
    launchJob w job =
      { ret := none, job := { job with URL := u.getD job.URL },
        effects := [Effect.resolveConfig, Effect.createJob, Effect.urlPoll],
        submitted := some (buildSubmitted job pj
          ("ci-ln-" ++ namespaceSafeHash [job.Name]) w.prowNamespace) }
    ∧ (launchJob w job).job.Credentials = ""
    ∧ (launchJob w job).job.PasswordSnippet = "" := by
  have hg : (job.Credentials.length > 0 && job.PasswordSnippet.length > 0) = false := by
    simp [hcred]
  have heq : launchJob w job =
      { ret := none, job := { job with URL := u.getD job.URL },
        effects := [Effect.resolveConfig, Effect.createJob, Effect.urlPoll],
        submitted := some (buildSubmitted job pj
          ("ci-ln-" ++ namespaceSafeHash [job.Name]) w.prowNamespace) } := by
    simp only [launchJob, hg, Bool.false_eq_true, if_false, launchResolve, hcfg, ht,
      launchCreate, hcf, launchURL, hu, launchModeCheck]
    rw [if_neg hm]
    simp
  refine ⟨heq, ?_, ?_⟩ <;> rw [heq]
  · exact hcred
  · exact hsnip

theorem claim_C10_witness :
    launchJob c10World c10Job =
      { ret := none, job := { c10Job with URL := (some ("https://prow/job/1")).getD c10Job.URL },
        effects := [Effect.resolveConfig, Effect.createJob, Effect.urlPoll],
        submitted := some (buildSubmitted c10Job fixtureProwJob
          ("ci-ln-" ++ namespaceSafeHash [c10Job.Name]) c10World.prowNamespace) }
    ∧ (launchJob c10World c10Job).job.Credentials = ""
    ∧ (launchJob c10World c10Job).job.PasswordSnippet = "" :=
  claim_C10 c10World c10Job fixtureProwJob ("test") (some ("https://prow/job/1"))
    rfl rfl rfl rfl rfl rfl (by decide)

/-- Claim C2: when credential retrieval succeeds (necessarily with a
non-empty artifact) but the reachability probe fails, the stored
credential artifact is cleared back to the empty string, the log-snippet
extraction and the channel-annotation-clearing patch still run, and the
run returns the reachability error. -/
theorem claim_C2 (w : World) (job : Job) (pj : ProwJob) (t : String) (u : Option String)
    (b : Bool) (st : SetupSt) (kc e : String)
    (hg : (job.Credentials.length > 0 && job.PasswordSnippet.length > 0) = false)
    (hcfg : w.jobForConfig = Except.ok pj)
    (ht : findTargetName pj.spec.podSpec = Except.ok t)
    (hcf : createFatal w.createResult = none)
    (hu : runPoll urlCond none w.urlObs = PollOut.ok u)
    (hm : job.Mode = "launch")
    (hv : runPoll visCond false w.visObs = PollOut.ok b)
    (hs : runPoll setupCond setupInit w.setupObs = PollOut.ok st)
    (hk : runPoll execCond ("") w.execObs = PollOut.ok kc)
    (hr : waitForClusterReachable w.reachLoad w.reachProbes = some e) :
    (launchJob w job).ret = some ("cluster did not become reachable: " ++ e)
    ∧ (launchJob w job).job.Credentials = ""
    ∧ (launchJob w job).job.PasswordSnippet = reFixLines w.logs
    ∧ 0 < kc.length
    ∧ (launchJob w job).effects = [Effect.resolveConfig, Effect.createJob, Effect.urlPoll,
        Effect.visPoll, Effect.setupPoll, Effect.credExec, Effect.reachProbe,
        Effect.logFetch, Effect.clearChannel] := by
  have hx : launchJob w job = launchFinish w { job with URL := u.getD job.URL }
      [Effect.resolveConfig, Effect.createJob, Effect.urlPoll, Effect.visPoll,
       Effect.setupPoll, Effect.credExec]
      (buildSubmitted job pj ("ci-ln-" ++ namespaceSafeHash [job.Name]) w.prowNamespace)
      kc := by
    simp [launchJob, hg, launchResolve, hcfg, ht, launchCreate, hcf, launchURL, hu,
      launchModeCheck, hm, launchVis, hv, launchSetup, setupStage, hs, launchCred, hk]
  refine ⟨?_, ?_, ?_, execPoll_ok_pos w.execObs ("") kc hk, ?_⟩ <;>
    rw [hx] <;> simp [launchFinish, hr]

theorem claim_C2_witness :
    (launchJob c2World fixtureJob).ret
      = some ("cluster did not become reachable: " ++ timeoutMsg)
    ∧ (launchJob c2World fixtureJob).job.Credentials = ""
    ∧ (launchJob c2World fixtureJob).job.PasswordSnippet = reFixLines c2World.logs
    ∧ 0 < ("apiVersion: v1").length
    ∧ (launchJob c2World fixtureJob).effects = [Effect.resolveConfig, Effect.createJob,
        Effect.urlPoll, Effect.visPoll, Effect.setupPoll, Effect.credExec, Effect.reachProbe,
        Effect.logFetch, Effect.clearChannel] :=
  claim_C2 c2World fixtureJob fixtureProwJob ("test") (some ("https://prow/job/2"))
    true ⟨true, none⟩ "apiVersion: v1" timeoutMsg
    (by decide) rfl rfl rfl rfl rfl rfl rfl rfl rfl

theorem envVarsRewritten_buildSubmitted (job : Job) (pj : ProwJob) (ns pns : String)
    (hui : job.UpgradeImage = "") :
    envVarsRewritten job.InstallImage ns (buildSubmitted job pj ns pns) = true := by
  unfold buildSubmitted
  simp only [hui]
  simpa using envVarsRewritten_override _ pj.spec job.InstallImage ("") ns

/-- Claim C4, counterexample: the hash of the request name launch-abc123 has
7 characters, not 8, so the derived namespace is ci-ln- followed by a
7-character hash. -/
theorem claim_C4_cex :
    (namespaceSafeHash ["launch-abc123"]).length = 7
    ∧ ¬((namespaceSafeHash ["launch-abc123"]).length = 8) := by decide

/-- Claim C4, amended: for the request named launch-abc123 in launch mode
with install image registry/img:latest and no upgrade image, the submitted
resource carries the derived namespace ci-ln- followed by the 7-character
hash of launch-abc123 in its namespace annotation, every container
RELEASE_IMAGE_LATEST variable is rewritten to registry/img:latest and
every NAMESPACE variable to the derived namespace string. -/
theorem claim_C4 (w : World) (job : Job) (pj : ProwJob) (t : String)
    (hname : job.Name = "launch-abc123") (_hmode : job.Mode = "launch")
    (hii : job.InstallImage = "registry/img:latest") (hui : job.UpgradeImage = "")
    (hg : (job.Credentials.length > 0 && job.PasswordSnippet.length > 0) = false)
    (hcfg : w.jobForConfig = Except.ok pj)
    (ht : findTargetName pj.spec.podSpec = Except.ok t) :
    (namespaceSafeHash ["launch-abc123"]).length = 7
    ∧ (launchJob w job).submitted.map
        (fun p => (p.metadata.annotations).lookup ("ci-chat-bot.openshift.io/ns"))
      = some (some ("ci-ln-" ++ namespaceSafeHash ["launch-abc123"]))
    ∧ (launchJob w job).submitted.map
        (envVarsRewritten ("registry/img:latest")
          ("ci-ln-" ++ namespaceSafeHash ["launch-abc123"]))
      = some true := by
  have hsub : (launchJob w job).submitted
      = some (buildSubmitted job pj ("ci-ln-" ++ namespaceSafeHash [job.Name])
          w.prowNamespace) := by
    have hx : launchJob w job = launchCreate w job [Effect.resolveConfig]
        (buildSubmitted job pj ("ci-ln-" ++ namespaceSafeHash [job.Name]) w.prowNamespace) := by
      simp only [launchJob, hg, Bool.false_eq_true, if_false, launchResolve, hcfg, ht]
    rw [hx]
    exact launchCreate_submitted w job [Effect.resolveConfig] _
  refine ⟨by decide, ?_, ?_⟩
  · rw [hsub, hname]
    simp only [Option.map]
    exact congrArg some (buildSubmitted_ns_ann job pj _ w.prowNamespace)
  · rw [hsub, hname]
    simp only [Option.map]
    refine congrArg some ?_
    have h := envVarsRewritten_buildSubmitted job pj
      ("ci-ln-" ++ namespaceSafeHash ["launch-abc123"]) w.prowNamespace hui
    rw [hii] at h
    exact h

theorem claim_C4_witness :
    (namespaceSafeHash ["launch-abc123"]).length = 7
    ∧ (launchJob fixtureWorld fixtureJob).submitted.map
        (fun p => (p.metadata.annotations).lookup ("ci-chat-bot.openshift.io/ns"))
      = some (some ("ci-ln-" ++ namespaceSafeHash ["launch-abc123"]))
    ∧ (launchJob fixtureWorld fixtureJob).submitted.map
        (envVarsRewritten ("registry/img:latest")
          ("ci-ln-" ++ namespaceSafeHash ["launch-abc123"]))
      = some true :=
  claim_C4 fixtureWorld fixtureJob fixtureProwJob ("test")
    rfl rfl rfl rfl (by decide) rfl rfl

theorem compressStep_length (s : List Nat) (wk : Nat × Nat) :
    (compressStep s wk).length = s.length := by
  unfold compressStep
  split <;> simp

theorem foldl_compressStep_length (l : List (Nat × Nat)) (init : List Nat) :
    (l.foldl compressStep init).length = init.length := by
  induction l generalizing init with
  | nil => rfl
  | cons x xs ih => rw [List.foldl_cons, ih, compressStep_length]

theorem compress_length (hs block : List Nat) (h : hs.length = 8) :
    (compress hs block).length = 8 := by
  unfold compress
  simp [List.length_zip, foldl_compressStep_length, h]

theorem sha256Blocks_length (n : Nat) : ∀ (h ws : List Nat), h.length = 8 →
    (sha256Blocks h ws n).length = 8 := by
  induction n with
  | zero => intro h ws hh; exact hh
  | succ n ih => intro h ws hh; exact ih _ _ (compress_length h _ hh)

theorem flatMap4_length (l : List Nat) :
    (l.flatMap (fun w =>
      [(w >>> 24) &&& 255, (w >>> 16) &&& 255, (w >>> 8) &&& 255, w &&& 255])).length
      = 4 * l.length := by
  induction l with
  | nil => rfl
  | cons x xs ih =>
    simp only [List.flatMap_cons, List.length_append, ih, List.length_cons, List.length_nil]
    omega

theorem sha256_length (msg : List Nat) : (sha256 msg).length = 32 := by
  simp only [sha256]
  rw [flatMap4_length, sha256Blocks_length _ shaH0 _ (by decide)]

theorem String_length_mk (l : List Char) : (String.mk l).length = l.length := rfl

theorem base32EncodeNoPad_length (alpha : String) (bs : List Nat) :
    (base32EncodeNoPad alpha bs).length = (8 * bs.length + 4) / 5 := by
  simp only [base32EncodeNoPad]
  rw [String_length_mk, List.length_map, List.length_range]

theorem namespaceSafeHash_length (values : List String) :
    (namespaceSafeHash values).length = 7 := by
  unfold namespaceSafeHash oneWayNameEncoding
  rw [base32EncodeNoPad_length]
  simp [List.length_take, sha256_length]

theorem base32EncodeNoPad_chars (alpha : String) (h : alpha.data.length = 32)
    (bs : List Nat) : ∀ c ∈ (base32EncodeNoPad alpha bs).data, c ∈ alpha.data := by
  unfold base32EncodeNoPad
  intro c hc
  simp only [String.data, List.mem_map, List.mem_range] at hc
  obtain ⟨i, _, rfl⟩ := hc
  have hlt : ((bs.foldl (fun acc b => acc * 256 + b) 0) <<<
      (5 * ((8 * bs.length + 4) / 5) - 8 * bs.length) >>>
      (5 * ((8 * bs.length + 4) / 5 - 1 - i))) &&& 31 < alpha.data.length := by
    rw [h]
    exact Nat.lt_of_le_of_lt Nat.and_le_right (by omega)
  rw [List.getD_eq_getElem?_getD, List.getElem?_eq_getElem hlt]
  exact List.getElem_mem hlt

/-- Claim C7: the Identifier Hasher is deterministic (a pure function of
its inputs), and its output is the unpadded 32-symbol encoding of exactly
the first 4 bytes of the digest of the concatenated input bytes: 7
characters, all drawn from the fixed lowercase-and-digit alphabet, which
has 32 symbols, contains no padding character and omits the ambiguous
vowels a, e, o, u (in particular the 0-lookalike o). -/
theorem claim_C7 (values : List String) :
    (∀ values2, values2 = values → namespaceSafeHash values2 = namespaceSafeHash values)
    ∧ namespaceSafeHash values
        = oneWayNameEncoding ((sha256 (values.flatMap strBytes)).take 4)
    ∧ (namespaceSafeHash values).length = 7
    ∧ (∀ c ∈ (namespaceSafeHash values).data, c ∈ oneWayNameEncodingAlphabet.data)
    ∧ oneWayNameEncodingAlphabet.length = 32
    ∧ (∀ c ∈ oneWayNameEncodingAlphabet.data, c.isLower = true ∨ c.isDigit = true)
    ∧ '=' ∉ (namespaceSafeHash values).data
    ∧ 'o' ∉ oneWayNameEncodingAlphabet.data
    ∧ 'a' ∉ oneWayNameEncodingAlphabet.data
    ∧ 'e' ∉ oneWayNameEncodingAlphabet.data
    ∧ 'u' ∉ oneWayNameEncodingAlphabet.data := by
  have hchars : ∀ c ∈ (namespaceSafeHash values).data, c ∈ oneWayNameEncodingAlphabet.data :=
    fun c hc => base32EncodeNoPad_chars oneWayNameEncodingAlphabet (by decide) _ c hc
  refine ⟨fun v2 hv => by rw [hv], rfl, namespaceSafeHash_length values, hchars,
    by decide, by decide, ?_, by decide, by decide, by decide, by decide⟩
  intro hmem
  have := hchars '=' hmem
  revert this
  decide

theorem claim_C7_witness :
    (namespaceSafeHash ["launch-abc123"]).length = 7
    ∧ oneWayNameEncodingAlphabet.length = 32 :=
  ⟨(claim_C7 ["launch-abc123"]).2.2.1, (claim_C7 ["launch-abc123"]).2.2.2.2.1⟩

/-- Claim C9: OverrideJobEnvironment rewrites, in every container, exactly
the variables named RELEASE_IMAGE_LATEST, RELEASE_IMAGE_INITIAL and
NAMESPACE; every other variable keeps its value, every name is preserved,
and no variable and no container is added or removed. -/
theorem claim_C9 (spec : ProwJobSpec) (image initialImage ns : String) (ps : PodSpec)
    (h : spec.podSpec = some ps) :
    (OverrideJobEnvironment spec image initialImage ns).podSpec.isSome = true
    ∧ List.Forall₂ (fun c c2 =>
        c2.name = c.name ∧ c2.args = c.args ∧
        List.Forall₂ (fun v v2 =>
          v2.name = v.name ∧
          v2.value = (if v.name = "RELEASE_IMAGE_LATEST" then image
                      else if v.name = "RELEASE_IMAGE_INITIAL" then initialImage
                      else if v.name = "NAMESPACE" then ns
                      else v.value)) c.env c2.env)
        ps.containers
        (((OverrideJobEnvironment spec image initialImage ns).podSpec.getD ⟨[]⟩).containers) := by
  constructor
  · simp [OverrideJobEnvironment, h]
  · simp only [OverrideJobEnvironment, h, Option.map, Option.getD]
    induction ps.containers with
    | nil => constructor
    | cons c cs ih =>
      simp only [List.map_cons]
      refine List.Forall₂.cons ⟨rfl, rfl, ?_⟩ ih
      simp only [overrideEnvList]
      induction c.env with
      | nil => constructor
      | cons v vs ihe =>
        simp only [List.map_cons]
        refine List.Forall₂.cons ?_ ihe
        by_cases h1 : v.name = "RELEASE_IMAGE_LATEST"
        · exact ⟨by simp [h1], by simp [h1]⟩
        · by_cases h2 : v.name = "RELEASE_IMAGE_INITIAL"
          · exact ⟨by simp [h1, h2], by simp [h1, h2]⟩
          · by_cases h3 : v.name = "NAMESPACE"
            · exact ⟨by simp [h1, h2, h3], by simp [h1, h2, h3]⟩
            · exact ⟨by simp [h1, h2, h3], by simp [h1, h2, h3]⟩

theorem claim_C9_witness :
    (OverrideJobEnvironment fixtureProwJob.spec ("img2") "img1" "ci-ln-x").podSpec.isSome = true
    ∧ List.Forall₂ (fun c c2 =>
        c2.name = c.name ∧ c2.args = c.args ∧
        List.Forall₂ (fun v v2 =>
          v2.name = v.name ∧
          v2.value = (if v.name = "RELEASE_IMAGE_LATEST" then ("img2")
                      else if v.name = "RELEASE_IMAGE_INITIAL" then ("img1")
                      else if v.name = "NAMESPACE" then ("ci-ln-x")
                      else v.value)) c.env c2.env)
        fixturePodSpec.containers
        (((OverrideJobEnvironment fixtureProwJob.spec ("img2") "img1" "ci-ln-x").podSpec.getD
            ⟨[]⟩).containers) :=
  claim_C9 fixtureProwJob.spec ("img2") "img1" "ci-ln-x" fixturePodSpec rfl
